import Mathlib

/-!
Verification development for the DevBeaver Bot backend server
(`server/index.js`).  The definitions below are a shallow embedding of the
per-user state store and the four orchestrator operations of that file:

* the conversational turn handler (`app.post("/chat")`, lines 439-513),
* the media ingestion handler (`app.post("/upload-image/:userId")`,
  lines 178-308),
* the artifact regeneration handler (`app.post("/promptBackground")`,
  lines 319-427),
* the reset handler (`app.get("/reset")`, lines 49-115).

Generation-service responses are untrusted text; the embedding takes the
outcome of `JSON.parse` on the (fence-stripped) raw response as an input of
type `Option Json`, where `none` models a parse failure (a thrown
`SyntaxError`).  JavaScript property access `v.k` is modelled by `jsLookup`,
which yields `none` both for `undefined` results and for accesses that throw
(on `null` and on primitives); at each use site the surrounding control flow
is modelled so that the observable outcome (which writes happen, which error
is surfaced) matches the JavaScript semantics of the source.
-/

/-- JSON values, the result type of a successful `JSON.parse`.  Objects are
field lists; `JSON.parse` always produces objects with pairwise distinct
keys, so a first-match lookup agrees with JavaScript property access. -/
inductive Json where
  | null : Json
  | bool : Bool → Json
  | num : Int → Json
  | str : String → Json
  | arr : List Json → Json
  | obj : List (String × Json) → Json

/-- First-match lookup in an object field list. -/
def lookupField : List (String × Json) → String → Option Json
  | [], _ => none
  | (k, v) :: rest, key => if k = key then some v else lookupField rest key

/-- JavaScript property read `v.k` on a parsed JSON value: a field of an
object, `undefined` (here `none`) otherwise.  Reads on `null` throw in
JavaScript; callers model that throw explicitly where it changes the
observable outcome. -/
def jsLookup : Json → String → Option Json
  | Json.obj fields, key => lookupField fields key
  | _, _ => none

/-- JavaScript property write `o.k = v` on an object field list: replaces the
value of an existing key in place, otherwise appends the key at the end. -/
def setField : List (String × Json) → String → Json → List (String × Json)
  | [], k, v => [(k, v)]
  | (k', v') :: rest, k, v =>
      if k' = k then (k, v) :: rest else (k', v') :: setField rest k v

/-- One conversation turn as stored in `chat-history.json`:
`{ user: ..., bot: ... }`.  The `user` field is always written as a string by
the server; the `bot` field is written from untrusted model output, so it can
be any JSON value or absent (`JSON.stringify` drops fields whose value is
`undefined`, and parsing the file back then yields no `bot` key, which this
embedding represents as `none`). -/
structure Turn where
  user : String
  bot : Option Json

/-- Result of one invocation of the chat handler: the persisted history and
profile after the call, whether the request succeeded (HTTP 200), and the
`reply` field of the response body. -/
structure ChatOut where
  hist : List Turn
  prof : Json
  ok : Bool
  reply : Option Json

/-- Conversational turn, `app.post("/chat")` lines 450-512, at the level of
parsed documents.  `hist` and `prof` are the stored history and profile
(after default materialization, lines 452-458), `msg` the user message, and
`resp` the outcome of `JSON.parse` on the fence-stripped model response
(line 492-494).

Control flow of the source: the handler builds
`updatedHistory = [...chatHistory, \x7b user: message, bot: "" \x7d]`, calls the
model, parses, sets `updatedHistory[last].bot = parsed.nextQuestion`, writes
the history file, then writes the profile file with
`JSON.stringify(parsed.updatedUserProfile)`.

* `resp = none`: `JSON.parse` throws, the catch block answers 500, and no
  file has been written: state is unchanged.
* `resp = some Json.null`: `parsed.nextQuestion` throws a `TypeError` before
  any write; same observable outcome.
* otherwise the history write always succeeds; if `updatedUserProfile` is
  absent, `JSON.stringify` yields `undefined` and `writeFileSync` throws, so
  the history is already committed but the profile write is not (a partial
  commit), and the catch block answers 500. -/
def chatTurn (hist : List Turn) (prof : Json) (msg : String) (resp : Option Json) :
    ChatOut :=
  match resp with
  | none => ⟨hist, prof, false, none⟩
  | some Json.null => ⟨hist, prof, false, none⟩
  | some parsed =>
    let nq := jsLookup parsed ("nextQuestion")
    -- updatedHistory with the pending turn, its bot field then set to nq
    let committedHistory := hist ++ [⟨msg, nq⟩]
    match jsLookup parsed ("updatedUserProfile") with
    | none => ⟨committedHistory, prof, false, none⟩
    | some up => ⟨committedHistory, up, true, nq⟩

/-- Metadata of one uploaded file as produced by the multer storage step
(lines 188-194): the stored `filename` is `Date.now() + "-" + originalname`;
`uploadedAt` is the ISO timestamp taken in the analysis loop (line 257).
Both are environment-supplied inputs of the embedding. -/
structure UpFile where
  filename : String
  originalname : String
  uploadedAt : String
deriving DecidableEq

/-- One entry of `profile.images`, built at lines 253-260. -/
structure ImageRecord where
  filename : String
  originalname : String
  url : String
  uploadedAt : String
  description : String
  aiAnalysis : String
deriving DecidableEq

/-- The JSON object written for an `ImageRecord` (field order of the object
literal at lines 253-260). -/
def imageRecordJson (r : ImageRecord) : Json :=
  Json.obj [(("filename"), Json.str r.filename),
            (("originalname"), Json.str r.originalname),
            (("url"), Json.str r.url),
            (("uploadedAt"), Json.str r.uploadedAt),
            (("description"), Json.str r.description),
            (("aiAnalysis"), Json.str r.aiAnalysis)]

/-- The analysis loop of the upload handler (lines 222-263).  `analyses`
gives, per file, the outcome of the vision call: `some description`, or
`none` when the call throws.  The loop runs inside the single try block of
the handler, so the first throwing call aborts the whole batch: the result is
`none` and nothing is persisted. -/
def analyzeFiles (userText : String) :
    List UpFile → List (Option String) → Option (List ImageRecord)
  | [], _ => some []
  | _ :: _, [] => none
  | f :: fs, a :: as =>
    match a with
    | none => none
    | some desc =>
      match analyzeFiles userText fs as with
      | none => none
      | some rest =>
        some (⟨f.filename, f.originalname, ("uploads/") ++ f.filename,
               f.uploadedAt, userText, desc⟩ :: rest)

/-- The `user` line of the history turn appended by the upload handler
(line 284). -/
def uploadUserLine (nFiles : Nat) (userText : String) : String :=
  ("Uploaded ") ++ toString nFiles ++ (" image(s) with text: \"") ++ userText ++ ("\"")

/-- The `bot` line of the history turn appended by the upload handler
(line 285). -/
def uploadBotLine (recs : List ImageRecord) : String :=
  String.intercalate ("\n\n")
    (recs.map fun img => ("AI Analysis for ") ++ img.originalname ++ (": ") ++ img.aiAnalysis)

/-- The locked read-modify-write section of the upload handler
(lines 271-290), acting on the re-read profile and history documents.

JavaScript semantics of the profile update (lines 275-280):
* on an object, `images` is reset to `[]` when not an array, then the new
  records are pushed and the key is written back in place;
* on an array value, the property assignment attaches a non-index property,
  which `JSON.stringify` then drops, so the persisted profile is unchanged
  while the history turn is still appended;
* on `null` or a primitive, the property assignment throws a `TypeError`
  (module code is strict mode), the catch block answers 500, and neither
  file is written — modelled as `none`. -/
def uploadCommit (prof : Json) (hist : List Turn) (nFiles : Nat)
    (userText : String) (recs : List ImageRecord) : Option (Json × List Turn) :=
  let turn : Turn :=
    ⟨uploadUserLine nFiles userText, some (Json.str (uploadBotLine recs))⟩
  match prof with
  | Json.obj fields =>
    let oldImages :=
      match lookupField fields ("images") with
      | some (Json.arr xs) => xs
      | _ => []
    some (Json.obj (setField fields ("images")
            (Json.arr (oldImages ++ recs.map imageRecordJson))),
          hist ++ [turn])
  | Json.arr xs => some (Json.arr xs, hist ++ [turn])
  | _ => none

/-- Result of one invocation of the upload handler: persisted profile and
history, whether the request succeeded (HTTP 200), and the `images` list of
the response body. -/
structure UploadOut where
  prof : Json
  hist : List Turn
  ok : Bool
  images : List ImageRecord

/-- Media ingestion, `app.post("/upload-image/:userId")` second middleware
(lines 199-308), at the level of parsed documents.  `prof` and `hist` are
the parsed stored documents (the reads at lines 271-272 fall back to
`\x7b\x7d` and `[]` on empty files).  An empty batch is rejected with 400
(line 212); a throwing analysis call aborts the whole handler with 500 and
nothing persisted; otherwise the locked section commits all records and one
summary turn. -/
def uploadImagesOp (prof : Json) (hist : List Turn) (userText : String)
    (files : List UpFile) (analyses : List (Option String)) : UploadOut :=
  if files.isEmpty then ⟨prof, hist, false, []⟩
  else
    match analyzeFiles userText files analyses with
    | none => ⟨prof, hist, false, []⟩
    | some recs =>
      match uploadCommit prof hist files.length userText recs with
      | none => ⟨prof, hist, false, []⟩
      | some (p, h) => ⟨p, h, true, recs⟩

/-- Which of the two advisory file locks taken by the upload handler are
currently held. -/
structure LockSt where
  profileLocked : Bool
  historyLocked : Bool
deriving DecidableEq

/-- Lock discipline of the upload handler, lines 265-295.  The handler runs
`await lockfile.lock(profileFile)` and `await lockfile.lock(historyFile)`
before entering the try block whose finally clause unlocks both files; the
two lock acquisitions themselves are outside that try block, and a throwing
acquisition is caught by the outer catch (line 303).  Inputs say whether each
acquisition succeeds and whether the guarded body succeeds; the result is
the set of locks still held when the handler returns, plus the success flag
of the response. -/
def uploadLockSection (profileLockOk historyLockOk bodyOk : Bool) :
    LockSt × Bool :=
  if profileLockOk = false then
    -- lock(profileFile) threw: nothing held, 500
    (⟨false, false⟩, false)
  else if historyLockOk = false then
    -- lock(historyFile) threw after lock(profileFile) succeeded; the
    -- try/finally has not been entered, so the profile lock is never
    -- released
    (⟨true, false⟩, false)
  else
    -- both locks held; the finally clause releases both on success and on a
    -- throwing body alike
    (⟨false, false⟩, bodyOk)

/-- Shared per-user document state: the parsed contents of
`chat-history.json` and `user-data.json`. -/
structure St where
  hist : List Turn
  prof : Json

/-- Final persisted document state of one chat turn. -/
def chatFinalState (st : St) (msg : String) (resp : Option Json) : St :=
  let out := chatTurn st.hist st.prof msg resp
  ⟨out.hist, out.prof⟩

/-- Effect of the locked commit section of the upload handler on the shared
document state (the section re-reads both documents under the lock before
mutating, lines 270-290). -/
def uploadCommitState (st : St) (nFiles : Nat) (userText : String)
    (recs : List ImageRecord) : St :=
  match uploadCommit st.prof st.hist nFiles userText recs with
  | some (p, h) => ⟨h, p⟩
  | none => st

/-- Post-await commit block of the chat handler (lines 491-507) as a
function of the pre-await snapshot `snap` and the document state `cur` that
is current when the block runs (they differ when another writer committed
during the await).  The block consults only `snap`-derived locals for what
it writes, but which files it actually overwrites depends on the response:

* `resp = none` (JSON.parse throws, line 494) and `resp = some Json.null`
  (`parsed.nextQuestion` throws, line 497): no write at all, the current
  state stands;
* otherwise the history file is overwritten with the snapshot history plus
  the new turn (line 500); then, if `updatedUserProfile` is absent,
  `JSON.stringify` yields `undefined` and the profile write (line 501)
  throws, so the profile file keeps its current content; if it is present,
  the profile file is overwritten with it. -/
def chatCommitStep (snap : St) (msg : String) (resp : Option Json)
    (cur : St) : St :=
  match resp with
  | none => cur
  | some Json.null => cur
  | some parsed =>
    let nq := jsLookup parsed ("nextQuestion")
    let committedHistory := snap.hist ++ [⟨msg, nq⟩]
    match jsLookup parsed ("updatedUserProfile") with
    | none => ⟨committedHistory, cur.prof⟩
    | some up => ⟨committedHistory, up⟩

/-- Interleaved execution of a chat turn and a media ingestion for the same
user in which the ingestion commits during the chat turn's generation call.

The chat handler takes no lock: it reads both documents synchronously
(lines 457-458), suspends on `await openai.chat.completions.create`
(line 485), and then commits synchronously from values derived only from the
pre-await snapshot (lines 491-507) without re-reading.  The upload handler's
locked commit (lines 266-295) excludes only other holders of the same file
locks, which the chat handler never takes, so the Node event loop can run it
during the chat handler's await.  This schedule is therefore admissible:

1. chat reads `(hist, prof)` (the snapshot is the pre-state `st`);
2. upload's locked section commits its records and summary turn;
3. chat's commit block runs against that committed state. -/
def chatReadUploadChatCommit (st : St) (msg : String) (resp : Option Json)
    (nFiles : Nat) (userText : String) (recs : List ImageRecord) : St :=
  let snap := st
  let stMid := uploadCommitState st nFiles userText recs
  chatCommitStep snap msg resp stMid

/-- The three website source files, `webSite/index.html`, `webSite/styles.css`
and `webSite/script.js`, as read at lines 340-350. -/
structure WebsiteCode where
  html : String
  css : String
  js : String
deriving DecidableEq

/-- The value JavaScript `writeFileSync` accepts: the write succeeds only on
a string; on `undefined` or any non-string JSON value it throws a
`TypeError`. -/
def asWritableString : Option Json → Option String
  | some (Json.str s) => some s
  | _ => none

/-- The parse-and-write tail of the regeneration handler
(`app.post("/promptBackground")`, lines 406-421), acting on the current
website files.  `resp` is the outcome of `JSON.parse` on the raw model
response (no fence stripping happens in this handler).

On parse failure the handler answers 500 before any write.  On parse success
there is no shape validation: the three writes run in sequence on
`parsed.updatedCode.html`, `.css`, `.js`, and each one throws (TypeError on a
missing or non-string value, with `parsed.updatedCode` itself missing or
`null` the throw happens while evaluating the argument) leaving the writes
already performed in place, the rest untouched, and the catch block
answering 500. -/
def promptBackgroundWrite (site : WebsiteCode) (resp : Option Json) :
    WebsiteCode × Bool :=
  match resp with
  | none => (site, false)
  | some parsed =>
    match jsLookup parsed ("updatedCode") with
    | none => (site, false)
    | some updatedCode =>
      match asWritableString (jsLookup updatedCode ("html")) with
      | none => (site, false)
      | some h =>
        let site1 := { site with html := h }
        match asWritableString (jsLookup updatedCode ("css")) with
        | none => (site1, false)
        | some c =>
          let site2 := { site1 with css := c }
          match asWritableString (jsLookup updatedCode ("js")) with
          | none => (site2, false)
          | some j => ({ site2 with js := j }, true)

/-- Content of one stored file in this development.  Every write the server
performs on the per-user JSON documents is either `fs.ensureFileSync` (which
creates an empty file when none exists) or a `writeFileSync` of serialized
JSON; the three website files hold raw text.  `jsonData j` stands for a file
holding a serialization of `j`; parsing it back yields `j` again. -/
inductive FData where
  | emptyFile : FData
  | jsonData : Json → FData
  | text : String → FData

/-- A file system: resolved path segments to file content, `none` when the
file does not exist. -/
def FS : Type := List String → Option FData

/-- writeFileSync. -/
def fsWrite (fs : FS) (p : List String) (d : FData) : FS :=
  fun q => if q = p then some d else fs q

/-- fs.ensureFileSync: creates an empty file when absent, otherwise leaves
the file untouched. -/
def ensureFile (fs : FS) (p : List String) : FS :=
  match fs p with
  | some _ => fs
  | none => fsWrite fs p FData.emptyFile

/-- JSON.parse of the utf-8 content of a file: fails (throws) on an empty
file, on a missing file, and on non-JSON text. -/
def parseFData : Option FData → Option Json
  | some (FData.jsonData j) => some j
  | _ => none

/-- readFileSync with the existsSync fallback used for the website files
(lines 340-350): the fallback placeholder when the file is missing, its raw
text otherwise.  The website files only ever hold `text` or are absent in
the reachable states of this model; `emptyFile` reads as the empty string,
and a JSON document file is never read through this function. -/
def readTextOr (fs : FS) (p : List String) (fallback : String) : String :=
  match fs p with
  | none => fallback
  | some (FData.text s) => s
  | some FData.emptyFile => ""
  | some (FData.jsonData _) => fallback

/-- Per-user path of `user-data.json` below a base directory.  The reset and
chat handlers use `path.join("db", userId)`, resolved against the process
working directory; the upload and regeneration handlers use
`path.join(__dirname, "db", userId)`, resolved against the server module
directory.  The base argument receives whichever of the two applies. -/
def profilePath (base : List String) (u : String) : List String :=
  base ++ [("db"), u, ("user-data.json")]

/-- Per-user path of `chat-history.json` below a base directory. -/
def historyPath (base : List String) (u : String) : List String :=
  base ++ [("db"), u, ("chat-history.json")]

/-- Per-user path of `webSite/index.html` below a base directory. -/
def indexHtmlPath (base : List String) (u : String) : List String :=
  base ++ [("db"), u, ("webSite"), ("index.html")]

/-- Per-user path of `webSite/styles.css` below a base directory. -/
def stylesCssPath (base : List String) (u : String) : List String :=
  base ++ [("db"), u, ("webSite"), ("styles.css")]

/-- Per-user path of `webSite/script.js` below a base directory. -/
def scriptJsPath (base : List String) (u : String) : List String :=
  base ++ [("db"), u, ("webSite"), ("script.js")]

/-- The canonical default profile document written by the reset handler
(lines 65-84). -/
def defaultProfileJson : Json :=
  Json.obj [(("websiteType"), Json.str ("")),
            (("targetAudience"), Json.str ("")),
            (("mainGoal"), Json.str ("")),
            (("colorScheme"), Json.str ("")),
            (("theme"), Json.str ("")),
            (("pages"), Json.arr []),
            (("sections"), Json.arr []),
            (("features"), Json.arr []),
            (("content"), Json.obj []),
            (("designPreferences"), Json.obj []),
            (("images"), Json.arr []),
            (("fonts"), Json.str ("")),
            (("contactInfo"), Json.obj []),
            (("socialLinks"), Json.obj []),
            (("customScripts"), Json.str ("")),
            (("branding"), Json.obj []),
            (("updateRequests"), Json.arr []),
            (("additionalNotes"), Json.str (""))]

/-- The empty-placeholder website files written by the reset handler
(lines 97-99) and used as read fallbacks by the regeneration handler. -/
def emptyPlaceholders : WebsiteCode :=
  ⟨("<!-- empty -->"), ("/* empty */"), ("// empty")⟩

/-- Reset, `app.get("/reset")` lines 49-109.  The handler resolves its paths
with `path.join("db", userId)`, i.e. against the process working directory
`cwd`, and overwrites the history with `[]`, the profile with the default
document, and the three website files with their placeholders (the uploads
directory is also emptied; stored image binaries are outside this model). -/
def resetUser (fs : FS) (cwd : List String) (u : String) : FS :=
  let fs1 := fsWrite fs (historyPath cwd u) (FData.jsonData (Json.arr []))
  let fs2 := fsWrite fs1 (profilePath cwd u) (FData.jsonData defaultProfileJson)
  let fs3 := fsWrite fs2 (indexHtmlPath cwd u) (FData.text ("<!-- empty -->"))
  let fs4 := fsWrite fs3 (stylesCssPath cwd u) (FData.text ("/* empty */"))
  fsWrite fs4 (scriptJsPath cwd u) (FData.text ("// empty"))

/-- State-loading stage of the regeneration handler
(`app.post("/promptBackground")`, lines 325-350), resolved against the
server module directory `dirname`.  The handler runs `ensureFileSync` on
both documents and then `JSON.parse(readFileSync(...))` with no fallback for
empty content, so for a user whose documents were just created empty the
parse throws and the load yields no state (the handler answers 500).  On
success it also reads the three website files with placeholder fallbacks. -/
def pbLoadStage (fs : FS) (dirname : List String) (u : String) :
    FS × Option (Json × Json × WebsiteCode) :=
  let fs2 := ensureFile (ensureFile fs (profilePath dirname u)) (historyPath dirname u)
  match parseFData (fs2 (profilePath dirname u)) with
  | none => (fs2, none)
  | some userProfile =>
    match parseFData (fs2 (historyPath dirname u)) with
    | none => (fs2, none)
    | some chatHistory =>
      (fs2, some (userProfile, chatHistory,
        ⟨readTextOr fs2 (indexHtmlPath dirname u) (("<!-- empty -->")),
         readTextOr fs2 (stylesCssPath dirname u) (("/* empty */")),
         readTextOr fs2 (scriptJsPath dirname u) (("// empty"))⟩))

/-- Full regeneration handler at the file level (lines 319-427): load stage,
generation call, then the sequential website writes of
`promptBackgroundWrite` replayed against the file system.  The handler
writes nothing besides the three website files; on every failure path the
file system it leaves behind is the one produced by the load stage plus the
writes already performed. -/
def pbFiles (fs : FS) (dirname : List String) (u : String) (resp : Option Json) :
    FS × Bool :=
  match pbLoadStage fs dirname u with
  | (fs2, none) => (fs2, false)
  | (fs2, some _) =>
    match resp with
    | none => (fs2, false)
    | some parsed =>
      match jsLookup parsed ("updatedCode") with
      | none => (fs2, false)
      | some updatedCode =>
        match asWritableString (jsLookup updatedCode ("html")) with
        | none => (fs2, false)
        | some h =>
          let fs3 := fsWrite fs2 (indexHtmlPath dirname u) (FData.text h)
          match asWritableString (jsLookup updatedCode ("css")) with
          | none => (fs3, false)
          | some c =>
            let fs4 := fsWrite fs3 (stylesCssPath dirname u) (FData.text c)
            match asWritableString (jsLookup updatedCode ("js")) with
            | none => (fs4, false)
            | some j => (fsWrite fs4 (scriptJsPath dirname u) (FData.text j), true)

/-- A bot field counting as an empty assistant reply: the empty string, or
an absent field. -/
def emptyBot : Option Json → Bool
  | none => true
  | some (Json.str s) => s == ("")
  | some _ => false

/-- Number of trailing turns of a history whose assistant reply is empty
(the pending turns sitting at the tail). -/
def pendingTailLen (h : List Turn) : Nat :=
  (h.reverse.takeWhile fun t => emptyBot t.bot).length

/-- The invariant claimed for persisted histories: at most one pending turn
at the tail. -/
def pendingInv (h : List Turn) : Prop := pendingTailLen h ≤ 1

/-- Stubbed generation response of the end-to-end chat scenario. -/
def bakeryResp : Json :=
  Json.obj [(("nextQuestion"), Json.str ("What colors?")),
            (("updatedUserProfile"),
              Json.obj [(("websiteType"), Json.str ("bakery")),
                        (("images"), Json.arr [])])]

/-- Sample image record of a concurrently ingested upload. -/
def logoRecord : ImageRecord :=
  ⟨("100-logo.png"), ("logo.png"), ("uploads/100-logo.png"),
   ("2026-01-01T00:00:00.000Z"), ("our logo"), ("A logo image")⟩

/-- A generation response that is valid JSON but lacks the required
`updatedCode.\x7bhtml,css,js\x7d` shape: only `html` is present. -/
def htmlOnlyResp : Json :=
  Json.obj [(("updatedCode"), Json.obj [(("html"), Json.str ("<h1>X</h1>"))])]

/-- A generation response with the full required `updatedCode` shape. -/
def goodPbResp : Json :=
  Json.obj [(("updatedCode"),
    Json.obj [(("html"), Json.str ("<p>new</p>")),
              (("css"), Json.str ("body \x7b\x7d")),
              (("js"), Json.str ("// nav"))])]

/-- Sample uploaded files of a three-image batch. -/
def sampleFile1 : UpFile := ⟨("100-a.png"), ("a.png"), ("t1")⟩

/-- Second sample uploaded file. -/
def sampleFile2 : UpFile := ⟨("101-b.png"), ("b.png"), ("t2")⟩

/-- Third sample uploaded file. -/
def sampleFile3 : UpFile := ⟨("102-c.png"), ("c.png"), ("t3")⟩

/-- A parse-successful chat response whose `nextQuestion` is the empty
string. -/
def emptyNqResp : Json :=
  Json.obj [(("nextQuestion"), Json.str ("")),
            (("updatedUserProfile"), Json.obj [])]

/-! Helper lemmas shared by the claim theorems. -/

/-- fsWrite read back at the written path. -/
theorem fsWrite_same (fs : FS) (p : List String) (d : FData) :
    fsWrite fs p d p = some d := by
  simp [fsWrite]

/-- fsWrite read back at a different path. -/
theorem fsWrite_diff (fs : FS) (p q : List String) (d : FData) (h : q ≠ p) :
    fsWrite fs p d q = fs q := by
  simp [fsWrite, h]

/-- ensureFile is the identity on a file system where the file exists. -/
theorem ensureFile_of_exists (fs : FS) (p : List String) (d : FData)
    (h : fs p = some d) : ensureFile fs p = fs := by
  simp [ensureFile, h]

/-- Appending over a common base preserves distinctness of relative paths. -/
theorem append_ne_of_ne (base : List String) {xs ys : List String}
    (h : xs ≠ ys) : base ++ xs ≠ base ++ ys :=
  fun hEq => h (List.append_cancel_left hEq)

/-- C2: for every user and every stored history and profile, a chat turn
whose generation response fails to parse commits nothing: the persisted
history (hence its length) and profile equal their values before the call,
the pending turn is not persisted, and the caller receives a failure. -/
theorem chat_parse_failure_commits_nothing (hist : List Turn) (prof : Json)
    (msg : String) :
    chatTurn hist prof msg none = ⟨hist, prof, false, none⟩ ∧
    (chatTurn hist prof msg none).hist.length = hist.length :=
  ⟨rfl, rfl⟩

/-- C3: when the generation response of a chat turn parses with both a
`nextQuestion` and an `updatedUserProfile` field, the handler persists the
pending turn with its assistant text set to `nextQuestion`, replaces the
profile wholesale with `updatedUserProfile`, and returns the assistant text
and the updated history. -/
theorem chat_parse_success_commits (hist : List Turn) (prof : Json)
    (msg : String) (parsed nq up : Json)
    (hnq : jsLookup parsed ("nextQuestion") = some nq)
    (hup : jsLookup parsed ("updatedUserProfile") = some up) :
    chatTurn hist prof msg (some parsed) =
      ⟨hist ++ [⟨msg, some nq⟩], up, true, some nq⟩ := by
  cases parsed <;> simp [jsLookup] at hnq hup
  simp [chatTurn, jsLookup, hnq, hup]

/-- Witness for C3, the end-to-end scenario: against empty state, the bakery
stub yields history `[\x7buser: "I want a bakery site", bot: "What colors?"\x7d]`
and a profile whose `websiteType` is `"bakery"`. -/
theorem chat_parse_success_commits_witness :
    chatTurn [] (Json.obj []) ("I want a bakery site") (some bakeryResp) =
      ⟨[⟨("I want a bakery site"), some (Json.str ("What colors?"))⟩],
        Json.obj [(("websiteType"), Json.str ("bakery")), (("images"), Json.arr [])],
        true, some (Json.str ("What colors?"))⟩ ∧
    jsLookup (chatTurn [] (Json.obj []) ("I want a bakery site")
        (some bakeryResp)).prof ("websiteType") = some (Json.str ("bakery")) :=
  ⟨chat_parse_success_commits [] (Json.obj []) ("I want a bakery site")
      bakeryResp (Json.str ("What colors?"))
      (Json.obj [(("websiteType"), Json.str ("bakery")), (("images"), Json.arr [])])
      rfl rfl,
   rfl⟩

/-- Persisted history of the chat commit block on any non-null parsed
response: the snapshot history plus the new turn, regardless of the state
current at commit time and of whether the profile write then succeeds. -/
theorem chatCommitStep_hist (snap : St) (msg : String) (parsed : Json)
    (hne : parsed ≠ Json.null) (cur : St) :
    (chatCommitStep snap msg (some parsed) cur).hist =
      snap.hist ++ [⟨msg, jsLookup parsed ("nextQuestion")⟩] := by
  cases parsed
  case null => exact absurd rfl hne
  all_goals
    simp only [chatCommitStep]
    split <;> rfl

/-- C1 counterexample: the chat handler holds no lock across its
load-generate-persist sequence, so the schedule in which a media ingestion
commits during the chat turn's generation call is admissible; executed from
empty state with the bakery chat stub and a one-image ingestion, the final
state carries neither the ingestion's ConversationTurn nor its ImageRecord
(its `images` list is the stub's empty list), contradicting the claim that
both contributions survive any concurrent execution. -/
theorem chat_upload_interleaving_loses_ingestion :
    chatReadUploadChatCommit ⟨[], defaultProfileJson⟩ ("I want a bakery site")
        (some bakeryResp) 1 ("our logo") [logoRecord] =
      ⟨[⟨("I want a bakery site"), some (Json.str ("What colors?"))⟩],
        Json.obj [(("websiteType"), Json.str ("bakery")), (("images"), Json.arr [])]⟩ ∧
    uploadUserLine 1 ("our logo") ∉
      (chatReadUploadChatCommit ⟨[], defaultProfileJson⟩ ("I want a bakery site")
        (some bakeryResp) 1 ("our logo") [logoRecord]).hist.map Turn.user ∧
    jsLookup (chatReadUploadChatCommit ⟨[], defaultProfileJson⟩ ("I want a bakery site")
        (some bakeryResp) 1 ("our logo") [logoRecord]).prof ("images") =
      some (Json.arr []) :=
  ⟨rfl, by decide, rfl⟩

/-- C1 amended: the chat turn does not run under a `profileHistory` lock,
and its commit block writes only snapshot-derived values, so in the
interleaving where a media ingestion for the same user commits between the
chat turn's snapshot and its commit, which of the ingestion's contributions
survive depends on how far the chat commit gets: whenever the response
parses to a non-null value the history file is overwritten from the
snapshot and the ingestion's ConversationTurn is lost; when additionally
`updatedUserProfile` is present the profile file is replaced wholesale as
well, so the final state equals that of the chat turn alone and the
ImageRecord is lost too (unless the generation response happened to echo
it).  Only on the no-write failure paths (parse failure, null response)
does the ingestion's committed state stand. -/
theorem chat_snapshot_commit_erases_concurrent_ingestion
    (st : St) (msg : String) (n : Nat) (txt : String)
    (recs : List ImageRecord)
    (hline : uploadUserLine n txt ∉ st.hist.map Turn.user)
    (hmsg : msg ≠ uploadUserLine n txt) :
    (∀ parsed : Json, parsed ≠ Json.null →
      uploadUserLine n txt ∉
        (chatReadUploadChatCommit st msg (some parsed) n txt recs).hist.map Turn.user) ∧
    (∀ parsed up : Json, jsLookup parsed ("updatedUserProfile") = some up →
      chatReadUploadChatCommit st msg (some parsed) n txt recs =
        chatFinalState st msg (some parsed)) ∧
    chatReadUploadChatCommit st msg none n txt recs =
      uploadCommitState st n txt recs ∧
    chatReadUploadChatCommit st msg (some Json.null) n txt recs =
      uploadCommitState st n txt recs := by
  refine ⟨?_, ?_, rfl, rfl⟩
  · intro parsed hne hmem
    have hh : (chatReadUploadChatCommit st msg (some parsed) n txt recs).hist =
        (chatCommitStep st msg (some parsed) (uploadCommitState st n txt recs)).hist :=
      rfl
    rw [hh, chatCommitStep_hist st msg parsed hne] at hmem
    rcases List.mem_map.mp hmem with ⟨t, ht, hteq⟩
    rcases List.mem_append.mp ht with h1 | h2
    · exact hline (List.mem_map.mpr ⟨t, h1, hteq⟩)
    · have ht2 : t = ⟨msg, jsLookup parsed ("nextQuestion")⟩ :=
        List.mem_singleton.mp h2
      subst ht2
      exact hmsg hteq
  · intro parsed up hup
    cases parsed <;> simp [jsLookup] at hup
    simp [chatReadUploadChatCommit, chatCommitStep, chatFinalState, chatTurn,
          jsLookup, hup]

/-- Witness for the amended C1 theorem at a concrete interleaved execution
with the bakery response: the history-overwrite conjunct and the
erased-wholesale conjunct, both instantiated. -/
theorem chat_snapshot_commit_erases_concurrent_ingestion_witness :
    uploadUserLine 1 ("c") ∉
      (chatReadUploadChatCommit ⟨[], defaultProfileJson⟩ ("hello")
        (some bakeryResp) 1 ("c") [logoRecord]).hist.map Turn.user ∧
    chatReadUploadChatCommit ⟨[], defaultProfileJson⟩ ("hello")
        (some bakeryResp) 1 ("c") [logoRecord] =
      chatFinalState ⟨[], defaultProfileJson⟩ ("hello") (some bakeryResp) :=
  ⟨(chat_snapshot_commit_erases_concurrent_ingestion ⟨[], defaultProfileJson⟩
      ("hello") 1 ("c") [logoRecord] (by simp) (by decide)).1 bakeryResp
      (fun h => Json.noConfusion h),
   (chat_snapshot_commit_erases_concurrent_ingestion ⟨[], defaultProfileJson⟩
      ("hello") 1 ("c") [logoRecord] (by simp) (by decide)).2.1 bakeryResp
      (Json.obj [(("websiteType"), Json.str ("bakery")), (("images"), Json.arr [])])
      rfl⟩

/-- C4 counterexample: a generation response that is valid JSON but lacks the
required shape (only `updatedCode.html` is present) makes the regeneration
handler persist a strict-subset replacement: starting from the placeholder
artifact, the operation fails, yet the markup blob is replaced while the
styling and script blobs keep their old values — contradicting the claim
that on shape failure all three blobs are left exactly as they were. -/
theorem pb_shape_failure_partial_write :
    promptBackgroundWrite emptyPlaceholders (some htmlOnlyResp) =
      (⟨("<h1>X</h1>"), ("/* empty */"), ("// empty")⟩, false) ∧
    (⟨("<h1>X</h1>"), ("/* empty */"), ("// empty")⟩ : WebsiteCode) ≠
      emptyPlaceholders :=
  ⟨rfl, by decide⟩

/-- C4 amended: if the regeneration response fails to parse as JSON, or
parses without an `updatedCode` field, the operation aborts with a surfaced
failure and all three artifact blobs are left exactly as they were; if
`updatedCode` is present but its `html`/`css`/`js` values are not all
strings, the operation still fails but the blobs written before the first
failing field remain replaced. -/
theorem pb_parse_failure_leaves_artifact (site : WebsiteCode) :
    promptBackgroundWrite site none = (site, false) ∧
    (∀ parsed : Json, jsLookup parsed ("updatedCode") = none →
      promptBackgroundWrite site (some parsed) = (site, false)) := by
  refine ⟨rfl, fun parsed huc => ?_⟩
  simp [promptBackgroundWrite, huc]

/-- Witness for the amended C4 theorem: an object response without
`updatedCode` leaves the placeholder artifact untouched. -/
theorem pb_parse_failure_leaves_artifact_witness :
    promptBackgroundWrite emptyPlaceholders (some (Json.obj [])) =
      (emptyPlaceholders, false) :=
  (pb_parse_failure_leaves_artifact emptyPlaceholders).2 (Json.obj []) rfl

/-- C5 counterexample: ingesting three images where the analysis call throws
for exactly the second one appends zero ImageRecords (the profile keeps its
empty `images` list and the history is unchanged) and reports one failure —
not the two records and one failure the claim requires. -/
theorem upload_batch_single_failure_discards_all :
    uploadImagesOp defaultProfileJson [] ("caption")
        [sampleFile1, sampleFile2, sampleFile3]
        [some ("d1"), none, some ("d3")] =
      ⟨defaultProfileJson, [], false, []⟩ ∧
    jsLookup defaultProfileJson ("images") = some (Json.arr []) :=
  ⟨rfl, rfl⟩

/-- C5 amended: batch ingestion is all-or-nothing, not best-effort — a
throwing analysis call on any image aborts the whole handler before the
locked commit, so no ImageRecord is appended, the history is unchanged, and
a single failure is reported for the batch. -/
theorem upload_batch_failure_is_all_or_nothing (prof : Json) (hist : List Turn)
    (txt : String) (files : List UpFile) (analyses : List (Option String))
    (h : analyzeFiles txt files analyses = none) :
    uploadImagesOp prof hist txt files analyses = ⟨prof, hist, false, []⟩ := by
  cases files with
  | nil => simp [analyzeFiles] at h
  | cons f fs => simp [uploadImagesOp, h]

/-- Witness for the amended C5 theorem at the three-image batch with one
failing analysis. -/
theorem upload_batch_failure_is_all_or_nothing_witness :
    uploadImagesOp defaultProfileJson
        [⟨("hi"), some (Json.str ("welcome"))⟩] ("caption")
        [sampleFile1, sampleFile2, sampleFile3]
        [some ("d1"), none, some ("d3")] =
      ⟨defaultProfileJson, [⟨("hi"), some (Json.str ("welcome"))⟩], false, []⟩ :=
  upload_batch_failure_is_all_or_nothing defaultProfileJson
    [⟨("hi"), some (Json.str ("welcome"))⟩] ("caption")
    [sampleFile1, sampleFile2, sampleFile3]
    [some ("d1"), none, some ("d3")] rfl

/-- Contents of the five per-user files after a reset, read back at the
paths the reset handler wrote them to. -/
theorem resetUser_reads (fs : FS) (cwd : List String) (u : String) :
    resetUser fs cwd u (profilePath cwd u) = some (FData.jsonData defaultProfileJson) ∧
    resetUser fs cwd u (historyPath cwd u) = some (FData.jsonData (Json.arr [])) ∧
    resetUser fs cwd u (indexHtmlPath cwd u) = some (FData.text ("<!-- empty -->")) ∧
    resetUser fs cwd u (stylesCssPath cwd u) = some (FData.text ("/* empty */")) ∧
    resetUser fs cwd u (scriptJsPath cwd u) = some (FData.text ("// empty")) := by
  unfold resetUser
  refine ⟨?_, ?_, ?_, ?_, ?_⟩ <;>
    simp [fsWrite, profilePath, historyPath, indexHtmlPath, stylesCssPath, scriptJsPath]

/-- C6 counterexample: the reset handler resolves `db/` against the process
working directory while the regeneration handler resolves it against the
server module directory; when the two differ, loading a user's state right
after a fresh reset does not return the canonical defaults — it fails
outright (the load-stage result is `none`: the regeneration handler's
`ensureFileSync` creates empty files at its own paths and `JSON.parse` of
empty content throws), even though the reset did write the default profile
at its own path. -/
theorem reset_then_regeneration_load_path_mismatch :
    (pbLoadStage (resetUser (fun _ => none) [("home")] ("u1"))
        [("app"), ("server")] ("u1")).2 = none ∧
    resetUser (fun _ => none) [("home")] ("u1") (profilePath [("home")] ("u1")) =
      some (FData.jsonData defaultProfileJson) ∧
    (pbLoadStage (resetUser (fun _ => none) [("home")] ("u1"))
        [("app"), ("server")] ("u1")).1 (profilePath [("app"), ("server")] ("u1")) =
      some FData.emptyFile :=
  ⟨rfl, rfl, rfl⟩

/-- C6 amended: provided both handlers resolve `db/` against the same base
directory (the process working directory equals the server module
directory), loading a user's state after a fresh Reset returns the
canonical default profile, the empty history, and the empty-placeholder
artifact, for any prior file-system contents. -/
theorem reset_then_regeneration_load_same_base (fs : FS) (base : List String)
    (u : String) :
    (pbLoadStage (resetUser fs base u) base u).2 =
      some (defaultProfileJson, Json.arr [], emptyPlaceholders) := by
  have hr := resetUser_reads fs base u
  simp [pbLoadStage, ensureFile_of_exists _ _ _ hr.1, ensureFile_of_exists _ _ _ hr.2.1,
        hr.1, hr.2.1, hr.2.2.1, hr.2.2.2.1, hr.2.2.2.2, parseFData, readTextOr,
        emptyPlaceholders]

/-- C7: the regeneration handler does not materialize defaults for a fresh
user — `ensureFileSync` creates empty document files and the subsequent
`JSON.parse` of empty content throws, so the load produces no state and the
operation fails with 500 even when the generation response would be
perfectly well formed.  This theorem evaluates the code at the failing
input of the claim (a user with no stored documents). -/
theorem regeneration_fresh_user_load_fails :
    (pbLoadStage (fun _ => none) [("srv")] ("u1")).2 = none ∧
    (pbLoadStage (fun _ => none) [("srv")] ("u1")).1 (profilePath [("srv")] ("u1")) =
      some FData.emptyFile ∧
    (pbLoadStage (fun _ => none) [("srv")] ("u1")).1 (historyPath [("srv")] ("u1")) =
      some FData.emptyFile ∧
    (pbFiles (fun _ => none) [("srv")] ("u1") (some goodPbResp)).2 = false :=
  ⟨rfl, rfl, rfl, rfl⟩

/-- Frame property of the regeneration handler when both per-user documents
exist: every path other than the three website files is untouched. -/
theorem pbFiles_writes_only_website (fs : FS) (dirname : List String)
    (u : String) (resp : Option Json) (dp dh : FData)
    (hp : fs (profilePath dirname u) = some dp)
    (hh : fs (historyPath dirname u) = some dh) :
    ∀ p : List String, p ≠ indexHtmlPath dirname u → p ≠ stylesCssPath dirname u →
      p ≠ scriptJsPath dirname u → (pbFiles fs dirname u resp).1 p = fs p := by
  intro p h1 h2 h3
  have hfs2 : ensureFile (ensureFile fs (profilePath dirname u))
      (historyPath dirname u) = fs := by
    rw [ensureFile_of_exists _ _ _ hp, ensureFile_of_exists _ _ _ hh]
  rcases hP : parseFData (fs (profilePath dirname u)) with _ | prof0
  · simp [pbFiles, pbLoadStage, hfs2, hP]
  rcases hH : parseFData (fs (historyPath dirname u)) with _ | hist0
  · simp [pbFiles, pbLoadStage, hfs2, hP, hH]
  rcases resp with _ | parsed
  · simp [pbFiles, pbLoadStage, hfs2, hP, hH]
  rcases hU : jsLookup parsed ("updatedCode") with _ | uc
  · simp [pbFiles, pbLoadStage, hfs2, hP, hH, hU]
  rcases hHtml : asWritableString (jsLookup uc ("html")) with _ | hs
  · simp [pbFiles, pbLoadStage, hfs2, hP, hH, hU, hHtml]
  rcases hCss : asWritableString (jsLookup uc ("css")) with _ | cs
  · simp [pbFiles, pbLoadStage, hfs2, hP, hH, hU, hHtml, hCss, fsWrite, h1]
  rcases hJs : asWritableString (jsLookup uc ("js")) with _ | js0
  · simp [pbFiles, pbLoadStage, hfs2, hP, hH, hU, hHtml, hCss, hJs, fsWrite, h1, h2]
  · simp [pbFiles, pbLoadStage, hfs2, hP, hH, hU, hHtml, hCss, hJs, fsWrite, h1, h2, h3]

/-- C8 counterexample: a regeneration call for a user whose documents are
absent does mutate the stored profile and history documents — it creates
both as empty files (after which a later chat turn for that user throws on
`JSON.parse` of empty content), so the persisted documents after the call
do not equal their values before the call. -/
theorem pb_creates_missing_documents :
    (fun _ => none : FS) (profilePath [("srv")] ("u2")) = none ∧
    (pbFiles (fun _ => none) [("srv")] ("u2") none).1 (profilePath [("srv")] ("u2")) =
      some FData.emptyFile ∧
    (pbFiles (fun _ => none) [("srv")] ("u2") none).1 (historyPath [("srv")] ("u2")) =
      some FData.emptyFile :=
  ⟨rfl, rfl, rfl⟩

/-- C8 amended: for users whose profile and history documents already exist,
a regeneration call (successful or failed) leaves both documents exactly as
they were, and touches no path other than the three website blobs. -/
theorem pb_preserves_existing_documents (fs : FS) (dirname : List String)
    (u : String) (resp : Option Json) (dp dh : FData)
    (hp : fs (profilePath dirname u) = some dp)
    (hh : fs (historyPath dirname u) = some dh) :
    (pbFiles fs dirname u resp).1 (profilePath dirname u) = some dp ∧
    (pbFiles fs dirname u resp).1 (historyPath dirname u) = some dh ∧
    ∀ p : List String, p ≠ indexHtmlPath dirname u → p ≠ stylesCssPath dirname u →
      p ≠ scriptJsPath dirname u → (pbFiles fs dirname u resp).1 p = fs p := by
  have hframe := pbFiles_writes_only_website fs dirname u resp dp dh hp hh
  refine ⟨?_, ?_, hframe⟩
  · rw [hframe (profilePath dirname u) (by apply append_ne_of_ne; simp)
        (by apply append_ne_of_ne; simp) (by apply append_ne_of_ne; simp)]
    exact hp
  · rw [hframe (historyPath dirname u) (by apply append_ne_of_ne; simp)
        (by apply append_ne_of_ne; simp) (by apply append_ne_of_ne; simp)]
    exact hh

/-- Witness for the amended C8 theorem: after a reset (which creates both
documents), a failed regeneration call leaves them unchanged. -/
theorem pb_preserves_existing_documents_witness :
    (pbFiles (resetUser (fun _ => none) [("srv")] ("u3")) [("srv")] ("u3") none).1
        (profilePath [("srv")] ("u3")) = some (FData.jsonData defaultProfileJson) ∧
    (pbFiles (resetUser (fun _ => none) [("srv")] ("u3")) [("srv")] ("u3") none).1
        (historyPath [("srv")] ("u3")) = some (FData.jsonData (Json.arr [])) :=
  ⟨(pb_preserves_existing_documents (resetUser (fun _ => none) [("srv")] ("u3"))
      [("srv")] ("u3") none (FData.jsonData defaultProfileJson)
      (FData.jsonData (Json.arr [])) rfl rfl).1,
   (pb_preserves_existing_documents (resetUser (fun _ => none) [("srv")] ("u3"))
      [("srv")] ("u3") none (FData.jsonData defaultProfileJson)
      (FData.jsonData (Json.arr [])) rfl rfl).2.1⟩

/-- C9 counterexample: when the second lock acquisition of the upload
handler fails after the first one succeeded, the handler exits with the
profile-file lock still held — the exit path named by the claim does not
release the lock. -/
theorem lock_leak_on_second_acquire :
    uploadLockSection true false true = (⟨true, false⟩, false) ∧
    (uploadLockSection true false true).1.profileLocked = true :=
  ⟨rfl, rfl⟩

/-- C9 amended: the upload handler leaves no lock held on every exit path —
success, throwing body, or a failed first acquisition — except exactly the
path where acquiring the second (history) lock fails after the first
(profile) lock has been acquired, on which the profile lock remains held. -/
theorem locks_released_iff_not_second_acquire_failure
    (p h b : Bool) :
    (uploadLockSection p h b).1 = ⟨false, false⟩ ↔ ¬(p = true ∧ h = false) := by
  cases p <;> cases h <;> cases b <;> decide

/-- Length of the intercalate accumulator never shrinks. -/
theorem intercalate_go_length (s : String) :
    ∀ (as : List String) (acc : String),
      acc.length ≤ (String.intercalate.go acc s as).length := by
  intro as
  induction as with
  | nil => intro acc; exact Nat.le_refl _
  | cons a as ih =>
    intro acc
    calc acc.length ≤ (acc ++ s ++ a).length := by
          simp [String.length_append]
          omega
      _ ≤ _ := ih (acc ++ s ++ a)

/-- The summary line the upload handler stores as the assistant reply is
never the empty string for a non-empty batch. -/
theorem uploadBotLine_ne_empty (r : ImageRecord) (rs : List ImageRecord) :
    uploadBotLine (r :: rs) ≠ ("") := by
  intro hEq
  have h1 : (("AI Analysis for ") ++ r.originalname ++ (": ") ++ r.aiAnalysis).length ≤
      (uploadBotLine (r :: rs)).length := by
    simp only [uploadBotLine, List.map_cons, String.intercalate]
    exact intercalate_go_length _ _ _
  rw [hEq] at h1
  have hlit : (("AI Analysis for ") : String).length = 16 := rfl
  simp [String.length_append, hlit] at h1

/-- Appending a turn with a non-empty assistant reply clears the pending
tail. -/
theorem pendingTailLen_append_filled (h : List Turn) (t : Turn)
    (ht : emptyBot t.bot = false) : pendingTailLen (h ++ [t]) = 0 := by
  simp [pendingTailLen, List.reverse_append, ht]

/-- History a chat turn persists when the parsed response carries a
`nextQuestion` value: the snapshot history plus the turn with that value as
its assistant reply (this holds whether or not `updatedUserProfile` is also
present, since the history file is written first). -/
theorem chatTurn_hist_of_nextQuestion (hist : List Turn) (prof : Json)
    (msg : String) (parsed v : Json)
    (hnq : jsLookup parsed ("nextQuestion") = some v) :
    (chatTurn hist prof msg (some parsed)).hist = hist ++ [⟨msg, some v⟩] := by
  cases parsed <;> simp [jsLookup] at hnq
  simp only [chatTurn]
  split <;> simp [jsLookup, hnq]

/-- A successful analysis pass over a non-empty batch yields a non-empty
record list. -/
theorem analyzeFiles_cons_ne_nil (txt : String) (f : UpFile) (fs : List UpFile)
    (analyses : List (Option String)) (recs : List ImageRecord)
    (hA : analyzeFiles txt (f :: fs) analyses = some recs) : recs ≠ [] := by
  cases analyses with
  | nil => simp [analyzeFiles] at hA
  | cons a as =>
    cases a with
    | none => simp [analyzeFiles] at hA
    | some d =>
      rcases hR : analyzeFiles txt fs as with _ | rest <;>
        rw [analyzeFiles, hR] at hA
      · simp at hA
      · simp at hA
        rw [← hA]
        simp

/-- Shape of the history the locked upload commit persists. -/
theorem uploadCommit_hist (prof : Json) (hist : List Turn) (n : Nat)
    (txt : String) (recs : List ImageRecord) (p : Json) (h2 : List Turn)
    (hc : uploadCommit prof hist n txt recs = some (p, h2)) :
    h2 = hist ++ [⟨uploadUserLine n txt, some (Json.str (uploadBotLine recs))⟩] := by
  cases prof <;> simp [uploadCommit] at hc <;> exact hc.2.symm

/-- A successful upload appends exactly one summary turn built from a
non-empty record list. -/
theorem uploadImagesOp_ok_hist (prof : Json) (hist : List Turn) (txt : String)
    (files : List UpFile) (analyses : List (Option String))
    (hok : (uploadImagesOp prof hist txt files analyses).ok = true) :
    ∃ recs : List ImageRecord, recs ≠ [] ∧
      (uploadImagesOp prof hist txt files analyses).hist =
        hist ++ [⟨uploadUserLine files.length txt,
                  some (Json.str (uploadBotLine recs))⟩] := by
  cases files with
  | nil => simp [uploadImagesOp, List.isEmpty] at hok
  | cons f fs =>
    rcases hA : analyzeFiles txt (f :: fs) analyses with _ | recs
    · simp [uploadImagesOp, hA] at hok
    · rcases hc : uploadCommit prof hist (f :: fs).length txt recs with _ | pr
      · simp only [List.length_cons] at hc
        simp [uploadImagesOp, hA, hc] at hok
      · refine ⟨recs, analyzeFiles_cons_ne_nil txt f fs analyses recs hA, ?_⟩
        rcases pr with ⟨p, h2⟩
        have hsh := uploadCommit_hist prof hist (f :: fs).length txt recs p h2 hc
        simp only [List.length_cons] at hc hsh
        simp [uploadImagesOp, hA, hc, hsh]

/-- C10 counterexample: a parse-successful chat response whose
`nextQuestion` is the empty string is persisted as-is, so two consecutive
successful chat turns with such responses leave a persisted history whose
two tail turns both have an empty assistant reply — the second turn starts
from a state satisfying the invariant (one pending tail turn) and ends in a
state violating it. -/
theorem chat_empty_next_question_breaks_invariant :
    (chatTurn [] (Json.obj []) ("a") (some emptyNqResp)).ok = true ∧
    pendingTailLen ((chatTurn [] (Json.obj []) ("a") (some emptyNqResp)).hist) = 1 ∧
    (chatTurn ((chatTurn [] (Json.obj []) ("a") (some emptyNqResp)).hist)
        (Json.obj []) ("b") (some emptyNqResp)).ok = true ∧
    pendingTailLen ((chatTurn ((chatTurn [] (Json.obj []) ("a") (some emptyNqResp)).hist)
        (Json.obj []) ("b") (some emptyNqResp)).hist) = 2 :=
  ⟨rfl, by decide, rfl, by decide⟩

/-- C10 amended: provided every parse-successful chat response carries a
non-empty string `nextQuestion`, each operation leaves a persisted history
with no pending tail turn at all (which implies the claimed at-most-one
bound): a chat turn persists its turn only with the assistant reply filled
in, a failed chat parse leaves the history unchanged, a successful media
ingestion appends a summary turn with a non-empty assistant reply, and a
reset leaves the empty history. -/
theorem operations_preserve_pending_tail_invariant :
    (∀ (hist : List Turn) (prof : Json) (msg : String) (parsed : Json) (nq : String),
      jsLookup parsed ("nextQuestion") = some (Json.str nq) → nq ≠ ("") →
      pendingTailLen ((chatTurn hist prof msg (some parsed)).hist) = 0) ∧
    (∀ (hist : List Turn) (prof : Json) (msg : String),
      pendingInv hist → pendingInv ((chatTurn hist prof msg none).hist)) ∧
    (∀ (prof : Json) (hist : List Turn) (txt : String) (files : List UpFile)
        (analyses : List (Option String)),
      (uploadImagesOp prof hist txt files analyses).ok = true →
      pendingTailLen ((uploadImagesOp prof hist txt files analyses).hist) = 0) ∧
    pendingTailLen [] = 0 := by
  refine ⟨?_, ?_, ?_, rfl⟩
  · intro hist prof msg parsed nq hnq hne
    rw [chatTurn_hist_of_nextQuestion hist prof msg parsed (Json.str nq) hnq]
    refine pendingTailLen_append_filled _ _ ?_
    simp [emptyBot, hne]
  · intro hist prof msg hinv
    exact hinv
  · intro prof hist txt files analyses hok
    rcases uploadImagesOp_ok_hist prof hist txt files analyses hok with ⟨recs, hne, hh⟩
    rw [hh]
    cases recs with
    | nil => exact absurd rfl hne
    | cons r rs =>
      refine pendingTailLen_append_filled _ _ ?_
      have hb := uploadBotLine_ne_empty r rs
      simp [emptyBot, hb]

/-- Witness for the amended C10 theorem at the bakery scenario. -/
theorem operations_preserve_pending_tail_invariant_witness :
    pendingTailLen ((chatTurn [] (Json.obj []) ("I want a bakery site")
      (some bakeryResp)).hist) = 0 :=
  operations_preserve_pending_tail_invariant.1 [] (Json.obj [])
    ("I want a bakery site") bakeryResp ("What colors?") rfl (by decide)
